import Mathlib

/-!
Shallow embedding of `src/app.py` (Flask app: user registration/login over a
flat JSON file, plus a chat endpoint proxying to a remote generation API).

Modelling conventions:
* The JSON file `users.json` holds an ordered JSON array of user objects; it is
  embedded as a `List User`.  `get_users`/`save_users` are file IO: every
  function below takes the current file contents as an explicit `store`
  argument, and a function that calls `save_users` returns the new contents.
* `werkzeug.security.generate_password_hash` / `check_password_hash` are an
  external library (not part of this repository's sources).  They are modelled
  by their documented contract: `generate_password_hash` picks a random
  alphanumeric salt (here an explicit `salt` argument, standing for the
  randomness) and produces a string `method$salt$digest`; `check_password_hash`
  parses the method and salt back out of the stored string (`str.split("$", 2)`
  semantics: split at the first two `$` characters) and recomputes the digest
  of the candidate password.  The one-way scrypt digest itself is modelled
  symbolically by an executable character scramble `pwDigest`; only its
  determinism and its length are ever used.
* `datetime.now().isoformat()` is an explicit `now` argument.
-/

namespace CitizenAI

/-- One element of the `users.json` array, in the field order built by
`register_user` in `src/app.py` (lines 94-100). -/
structure User where
  email : String
  password : String
  first_name : String
  last_name : String
  created_at : String
deriving DecidableEq, Repr

/-- Symbolic stand-in for the scrypt digest of `salt ++ ":" ++ password`:
an executable character scramble.  It is deterministic and preserves the
length of its input, which is all the development uses. -/
def pwDigest (salt password : String) : String :=
  String.mk ((salt ++ ":" ++ password).data.map
    (fun c => Char.ofNat ((c.toNat + 13) % 128)))

/-- The method prefix werkzeug puts in front of the salt and digest. -/
def hashMethod : String := "scrypt:32768:8:1"

/-- Model of `werkzeug.security.generate_password_hash password` with the
internally generated random salt made explicit: the stored string is
`method$salt$digest`. -/
def generate_password_hash (salt password : String) : String :=
  hashMethod ++ "$" ++ salt ++ "$" ++ pwDigest salt password

/-- Split a character list at its first `'$'`: returns the part before it and
the part after it, or `none` when there is no `'$'`.  This is one step of
werkzeug's `method, salt, hashval = pwhash.split("$", 2)`. -/
def splitFirstDollar : List Char → Option (List Char × List Char)
  | [] => none
  | c :: cs =>
    if c = '$' then some ([], cs)
    else
      match splitFirstDollar cs with
      | none => none
      | some (pre, post) => some (c :: pre, post)

/-- Model of `werkzeug.security.check_password_hash pwhash password`: parse
`method$salt$digest` (splitting at the first two `'$'` characters, so the
digest part may itself contain `'$'`) and compare the stored digest with the
recomputed digest of the candidate password under the parsed salt. -/
def check_password_hash (pwhash password : String) : Bool :=
  match splitFirstDollar pwhash.data with
  | none => false
  | some (_method, rest) =>
    match splitFirstDollar rest with
    | none => false
    | some (saltChars, digestChars) =>
      decide (digestChars = (pwDigest (String.mk saltChars) password).data)

/-- `find_user` (src/app.py lines 84-88): scan the stored users in order and
return the first one whose `email` field equals (Python `==`, case-sensitive)
the argument; `None` when there is no match. -/
def find_user (store : List User) (email : String) : Option User :=
  match store with
  | [] => none
  | u :: rest => if u.email = email then some u else find_user rest email

/-- `register_user` (src/app.py lines 90-102).  Returns the `(ok, message)`
pair together with the resulting file contents: on a duplicate email the file
is not rewritten; otherwise the new user (with hashed password and creation
timestamp) is appended to the full list and the store is rewritten. -/
def register_user (store : List User)
    (salt now email password first_name last_name : String) :
    (Bool × String) × List User :=
  match find_user store email with
  | some _ => ((false, "Email already registered"), store)
  | none =>
    ((true, ""),
      store ++ [⟨email, generate_password_hash salt password,
                 first_name, last_name, now⟩])

/-- Result of `verify_user`: either an error message or the stored user
record (src/app.py returns the whole JSON object for the user). -/
inductive VerifyResult where
  | error (msg : String)
  | user (u : User)
deriving DecidableEq, Repr

/-- `verify_user` (src/app.py lines 104-110): look the email up, then check
the password hash; on success the whole stored record is returned. -/
def verify_user (store : List User) (email password : String) :
    Bool × VerifyResult :=
  match find_user store email with
  | none => (false, .error "User not found")
  | some u =>
    if check_password_hash u.password password then (true, .user u)
    else (false, .error "Incorrect password")

/-- Whether a verification result carries a given stored hash value:
a returned user record carries it in its `password` field; an error result
carries it when the message itself is that value. -/
def hashInVerifyResult (h : String) : VerifyResult → Bool
  | .user u => decide (u.password = h)
  | .error m => decide (m = h)

/-! ### Helper lemmas about `find_user` -/

theorem find_user_eq_none_iff (store : List User) (email : String) :
    find_user store email = none ↔ ∀ u ∈ store, u.email ≠ email := by
  induction store with
  | nil => simp [find_user]
  | cons u rest ih =>
    by_cases h : u.email = email
    · simp [find_user, h]
    · simp [find_user, h, ih]

theorem find_user_eq_some (store : List User) (email : String) (u : User)
    (h : find_user store email = some u) : u ∈ store ∧ u.email = email := by
  induction store with
  | nil => simp [find_user] at h
  | cons v rest ih =>
    by_cases hv : v.email = email
    · simp [find_user, hv] at h
      subst h
      exact ⟨List.mem_cons_self v rest, hv⟩
    · simp [find_user, hv] at h
      rcases ih h with ⟨hm, he⟩
      exact ⟨List.mem_cons_of_mem v hm, he⟩

theorem find_user_append (store l : List User) (email : String)
    (h : find_user store email = none) :
    find_user (store ++ l) email = find_user l email := by
  induction store with
  | nil => simp
  | cons v rest ih =>
    by_cases hv : v.email = email
    · simp [find_user, hv] at h
    · simp [find_user, hv] at h ⊢
      exact ih h

/-! ### Helper lemmas about the password-hash model -/

theorem splitFirstDollar_append (pre post : List Char) (h : '$' ∉ pre) :
    splitFirstDollar (pre ++ '$' :: post) = some (pre, post) := by
  induction pre with
  | nil => simp [splitFirstDollar]
  | cons c cs ih =>
    have hc : c ≠ '$' := fun hc => h (hc ▸ List.mem_cons_self c cs)
    have hcs : '$' ∉ cs := fun hm => h (List.mem_cons_of_mem c hm)
    simp [splitFirstDollar, hc, ih hcs]

theorem generate_password_hash_data (salt password : String) :
    (generate_password_hash salt password).data =
      hashMethod.data ++ '$' :: (salt.data ++ '$' :: (pwDigest salt password).data) := by
  simp [generate_password_hash, String.data_append]

theorem check_generate (salt password : String) (hsalt : '$' ∉ salt.data) :
    check_password_hash (generate_password_hash salt password) password = true := by
  have hmethod : '$' ∉ hashMethod.data := by decide
  unfold check_password_hash
  rw [generate_password_hash_data, splitFirstDollar_append _ _ hmethod]
  dsimp only
  rw [splitFirstDollar_append _ _ hsalt]
  dsimp only
  simp

theorem string_data_length (s : String) : s.data.length = s.length := rfl

theorem pwDigest_length (salt password : String) :
    (pwDigest salt password).length = salt.length + 1 + password.length := by
  rw [pwDigest, String.length_mk, List.length_map, string_data_length,
    String.length_append, String.length_append]
  rfl

theorem generate_password_hash_length (salt password : String) :
    (generate_password_hash salt password).length =
      19 + 2 * salt.length + password.length := by
  rw [generate_password_hash, String.length_append, String.length_append,
    String.length_append, String.length_append, pwDigest_length]
  have hm : hashMethod.length = 16 := rfl
  have hd : ("$" : String).length = 1 := rfl
  rw [hm, hd]
  omega

/-- The modelled hash is never the plaintext itself: it is strictly longer. -/
theorem generate_password_hash_ne_plaintext (salt password : String) :
    generate_password_hash salt password ≠ password := by
  intro h
  have hl := congrArg String.length h
  rw [generate_password_hash_length] at hl
  omega

/-! ### AI Gateway (`generate_ai_response`, src/app.py lines 21-65)

The remote call is modelled by its observable outcome `NetOutcome`.  The
exception routing follows the `httpx` class hierarchy: `TimeoutException`
and `ConnectError` are subclasses of `httpx.RequestError` and are caught by
the first handler (line 60); `response.raise_for_status()` (line 49) raises
`httpx.HTTPStatusError` for a non-2xx status, which is NOT a subclass of
`httpx.RequestError`, so it falls through to the generic `except Exception`
handler (line 63).  A structured body models the already-decoded JSON; the
field tests mirror the Python truthiness guards on lines 53-55 (a missing or
empty `candidates`/`parts` list is falsy). -/

/-- One part of a candidate's content: `{"text": ...}`. -/
structure GemPart where
  text : String
deriving DecidableEq, Repr

/-- A candidate's `content` object: `{"parts": [...]}`. -/
structure GemContent where
  parts : List GemPart
deriving DecidableEq, Repr

/-- One element of the `candidates` array. -/
structure GemCandidate where
  content : Option GemContent
deriving DecidableEq, Repr

/-- The decoded response body: `{"candidates": [...]}` (possibly absent). -/
structure GemBody where
  candidates : Option (List GemCandidate)
deriving DecidableEq, Repr

/-- Network-level outcome of the single POST to the generation endpoint. -/
inductive NetOutcome where
  | timeout
  | connectError
  | response (status : Nat) (body : GemBody)
deriving DecidableEq, Repr

/-- The `contents` payload built on lines 28-43: a fixed two-turn priming
exchange followed by the user's message, as (role, text) pairs. -/
def buildPayload (user_message : String) : List (String × String) :=
  [("user", "You are HealthAI, a helpful and responsible AI assistant."),
   ("model", "Understood. I am HealthAI. How can I help?"),
   ("user", user_message)]

/-- The guarded extraction on lines 53-56: first candidate's content's first
part's text, `none` when any of the truthiness guards fails. -/
def extractText (b : GemBody) : Option String :=
  match b.candidates with
  | some (c :: _) =>
    match c.content with
    | some ct =>
      match ct.parts with
      | p :: _ => some p.text
      | [] => none
    | none => none
  | _ => none

/-- `generate_ai_response` (src/app.py lines 21-65) as a function of the
user message and the network outcome.  The function is total: every outcome
is mapped to a reply string, never an exception. -/
def generate_ai_response (user_message : String) (net : NetOutcome) : String :=
  let _payload := buildPayload user_message
  match net with
  | .timeout => "Error: Could not connect to the AI service."
  | .connectError => "Error: Could not connect to the AI service."
  | .response status body =>
    if 200 ≤ status ∧ status ≤ 299 then
      match extractText body with
      | some t => t
      | none => "I'm sorry, I couldn't generate a response at the moment."
    else
      "An unexpected error occurred while generating the response."

/-! ### `/send_message` route (src/app.py lines 183-194) -/

/-- Python `str.strip()`'s whitespace set (ASCII part). -/
def pyIsSpace (c : Char) : Bool :=
  c = ' ' || c = '\t' || c = '\n' || c = '\r' || c = '\x0b' || c = '\x0c'

/-- Model of Python `str.strip()`: drop leading and trailing whitespace. -/
def py_strip (s : String) : String :=
  String.mk (((s.data.dropWhile pyIsSpace).reverse.dropWhile pyIsSpace).reverse)

/-- Response of the `/send_message` handler: an error JSON with an HTTP
status, or a 200 reply JSON. -/
inductive SendMessageResult where
  | errorResp (status : Nat) (msg : String)
  | reply (status : Nat) (text : String)
deriving DecidableEq, Repr

/-- `send_message` (src/app.py lines 183-194).  `hasSession` models
`'user' in session`; `message` models `data.get("message", "")` with `none`
for an absent field; `ai` is the AI Gateway as seen by the handler (what
`await generate_ai_response(...)` returns for a given message). -/
def send_message (hasSession : Bool) (message : Option String)
    (ai : String → String) : SendMessageResult :=
  if hasSession = false then .errorResp 401 "Not logged in"
  else
    let user_message := message.getD ""
    if py_strip user_message = "" then .errorResp 400 "Message cannot be empty"
    else .reply 200 (ai user_message)

/-! ### Auth Service operations as store transitions -/

/-- An Auth Service call: a registration (with the salt and timestamp that
the library and clock supply during the call) or a verification. -/
inductive AuthOp where
  | reg (salt now email password first_name last_name : String)
  | ver (email password : String)

/-- The effect of one Auth Service call on the credential store.
`register_user` returns the store it leaves behind; `verify_user` only calls
`find_user`/`get_users` (reads) and never `save_users`, so the store it
leaves behind is its input. -/
def authStep (store : List User) : AuthOp → List User
  | .reg salt now email password first_name last_name =>
    (register_user store salt now email password first_name last_name).2
  | .ver _ _ => store

/-- Stores reachable from the initial empty `users.json` by Auth Service
calls. -/
inductive Reachable : List User → Prop where
  | nil : Reachable []
  | step (store : List User) (op : AuthOp) :
      Reachable store → Reachable (authStep store op)

/-- All-whitespace lists are dropped entirely by `dropWhile`. -/
theorem dropWhile_eq_nil_of_all (l : List Char) (p : Char → Bool)
    (h : ∀ c ∈ l, p c = true) : l.dropWhile p = [] := by
  induction l with
  | nil => rfl
  | cons c cs ih =>
    have hc := h c (List.mem_cons_self c cs)
    rw [List.dropWhile_cons_of_pos hc]
    exact ih (fun x hx => h x (List.mem_cons_of_mem c hx))

/-- `py_strip` of an all-whitespace string is empty. -/
theorem py_strip_eq_empty_of_all_space (s : String)
    (h : s.data.all pyIsSpace = true) : py_strip s = "" := by
  rw [List.all_eq_true] at h
  unfold py_strip
  rw [dropWhile_eq_nil_of_all _ _ h]
  rfl

/-! ### Claim theorems -/

/-- C1, counterexample: the claim says a successful `verify` result never
contains the stored password hash.  On the store produced by registering
`a@x.com`, a successful `verify` returns the whole stored record, whose
`password` field is exactly the stored hash. -/
theorem verify_success_contains_hash_cex :
    (register_user [] "s1" "t0" "a@x.com" "pw" "A" "B").2 =
      [⟨"a@x.com", generate_password_hash "s1" "pw", "A", "B", "t0"⟩] ∧
    hashInVerifyResult (generate_password_hash "s1" "pw")
      ((verify_user (register_user [] "s1" "t0" "a@x.com" "pw" "A" "B").2
        "a@x.com" "pw").2) = true := by
  constructor
  · rfl
  · decide

/-- C1 (amended): on success `verify_user` returns the full stored user
record, password hash included; on a wrong password it returns the fixed
message `"Incorrect password"`, which is independent of the stored hash and
never equals a generated hash (a generated hash is longer than that
message). -/
theorem verify_result_contents (store : List User) (email password : String)
    (u : User) (hfind : find_user store email = some u) :
    (check_password_hash u.password password = true →
      verify_user store email password = (true, .user u)) ∧
    (check_password_hash u.password password = false →
      verify_user store email password = (false, .error "Incorrect password")) ∧
    (∀ salt pw, u.password = generate_password_hash salt pw →
      hashInVerifyResult u.password (.error "Incorrect password") = false) := by
  refine ⟨?_, ?_, ?_⟩
  · intro hc
    simp [verify_user, hfind, hc]
  · intro hc
    simp [verify_user, hfind, hc]
  · intro salt pw hp
    rw [hp]
    simp only [hashInVerifyResult, decide_eq_false_iff_not]
    intro he
    have h1 := congrArg String.length he
    rw [generate_password_hash_length] at h1
    have h2 : ("Incorrect password" : String).length = 18 := rfl
    rw [h2] at h1
    omega

/-- C1 witness: a wrong password on a concrete store yields the fixed
`"Incorrect password"` failure. -/
theorem verify_result_contents_witness :
    verify_user [⟨"a@x.com", generate_password_hash "s1" "pw", "A", "B", "t0"⟩]
        "a@x.com" "wrong" = (false, .error "Incorrect password") :=
  (verify_result_contents
      [⟨"a@x.com", generate_password_hash "s1" "pw", "A", "B", "t0"⟩]
      "a@x.com" "wrong"
      ⟨"a@x.com", generate_password_hash "s1" "pw", "A", "B", "t0"⟩
      (by decide)).2.1 (by decide)

/-- C2, counterexample: the claim says a non-2xx status yields the
connection-error fallback.  `raise_for_status` raises `httpx.HTTPStatusError`,
which is not an `httpx.RequestError`, so a 500 response is handled by the
generic `except Exception` branch and yields the other fallback string. -/
theorem generate_ai_response_non2xx_cex :
    generate_ai_response "hello" (.response 500 ⟨none⟩) =
        "An unexpected error occurred while generating the response." ∧
    generate_ai_response "hello" (.response 500 ⟨none⟩) ≠
        "Error: Could not connect to the AI service." := by
  constructor
  · rfl
  · decide

/-- C2 (amended): a timeout or connection error yields exactly the fixed
connection fallback; a non-2xx HTTP status yields the fixed unexpected-error
fallback; in every case a string is returned (the modelled function is total,
so no exception reaches the caller). -/
theorem generate_ai_response_network_failure (user_message : String) :
    generate_ai_response user_message .timeout =
        "Error: Could not connect to the AI service." ∧
    generate_ai_response user_message .connectError =
        "Error: Could not connect to the AI service." ∧
    ∀ status body, ¬(200 ≤ status ∧ status ≤ 299) →
      generate_ai_response user_message (.response status body) =
        "An unexpected error occurred while generating the response." := by
  refine ⟨rfl, rfl, ?_⟩
  intro status body h
  simp [generate_ai_response, h]

/-- C2 witness: a 500 response yields the unexpected-error fallback. -/
theorem generate_ai_response_network_failure_witness :
    generate_ai_response "hi" (.response 500 ⟨none⟩) =
      "An unexpected error occurred while generating the response." :=
  (generate_ai_response_network_failure "hi").2.2 500 ⟨none⟩ (by decide)

/-- C3: registering a fresh email and then verifying with the same password
succeeds and returns the stored record carrying the registered first and
last names.  The salt werkzeug draws is alphanumeric, hence `'$'`-free. -/
theorem register_verify_roundtrip (store : List User)
    (salt now email password first_name last_name : String)
    (hsalt : '$' ∉ salt.data)
    (hnew : ∀ u ∈ store, u.email ≠ email) :
    (register_user store salt now email password first_name last_name).1.1 = true ∧
    verify_user (register_user store salt now email password first_name last_name).2
        email password =
      (true, .user ⟨email, generate_password_hash salt password,
                    first_name, last_name, now⟩) := by
  have hfind : find_user store email = none :=
    (find_user_eq_none_iff store email).2 hnew
  have hstore : (register_user store salt now email password first_name last_name).2 =
      store ++ [⟨email, generate_password_hash salt password,
                 first_name, last_name, now⟩] := by
    simp [register_user, hfind]
  constructor
  · simp [register_user, hfind]
  · rw [hstore]
    unfold verify_user
    rw [find_user_append _ _ _ hfind]
    simp [find_user, check_generate _ _ hsalt]

/-- C3 witness: the concrete round trip from the spec. -/
theorem register_verify_roundtrip_witness :
    verify_user (register_user [] "s1" "t0" "a@x.com" "pw" "A" "B").2
        "a@x.com" "pw" =
      (true, .user ⟨"a@x.com", generate_password_hash "s1" "pw", "A", "B", "t0"⟩) :=
  (register_verify_roundtrip [] "s1" "t0" "a@x.com" "pw" "A" "B"
    (by decide) (by simp)).2

/-- C4: `register_user` fails with the duplicate-email error exactly when a
stored user's `email` field is (case-sensitively) equal to the argument; in
particular a second registration of the same email fails. -/
theorem register_duplicate_email_iff (store : List User)
    (salt now email password first_name last_name : String) :
    ((register_user store salt now email password first_name last_name).1 =
        (false, "Email already registered") ↔ ∃ u ∈ store, u.email = email) ∧
    ((register_user store salt now email password first_name last_name).1.1 = true →
      ∀ salt2 now2 password2 first2 last2,
        (register_user
            (register_user store salt now email password first_name last_name).2
            salt2 now2 email password2 first2 last2).1 =
          (false, "Email already registered")) := by
  cases hfind : find_user store email with
  | none =>
    have hnone := (find_user_eq_none_iff store email).1 hfind
    constructor
    · constructor
      · intro hv
        simp [register_user, hfind] at hv
      · rintro ⟨u, hu, he⟩
        exact absurd he (hnone u hu)
    · intro _ salt2 now2 password2 first2 last2
      have hstore : (register_user store salt now email password first_name last_name).2 =
          store ++ [⟨email, generate_password_hash salt password,
                     first_name, last_name, now⟩] := by
        simp [register_user, hfind]
      rw [hstore]
      unfold register_user
      rw [find_user_append _ _ _ hfind]
      simp [find_user]
  | some u =>
    obtain ⟨hmem, heq⟩ := find_user_eq_some store email u hfind
    constructor
    · constructor
      · intro _
        exact ⟨u, hmem, heq⟩
      · intro _
        simp [register_user, hfind]
    · intro hok
      simp [register_user, hfind] at hok

/-- C4 witness: registering `a@x.com` twice makes the second call fail. -/
theorem register_duplicate_email_iff_witness :
    (register_user (register_user [] "s1" "t0" "a@x.com" "pw" "A" "B").2
        "s2" "t1" "a@x.com" "pw2" "C" "D").1 =
      (false, "Email already registered") :=
  (register_duplicate_email_iff [] "s1" "t0" "a@x.com" "pw" "A" "B").2
    (by decide) "s2" "t1" "pw2" "C" "D"

/-- C5: over stores satisfying the data-model invariant that an email
identifies at most one user, `verify_user` fails with `"User not found"`
exactly when no stored user has the given email, and with
`"Incorrect password"` exactly when a stored user has that email but the
hash check of the given password against that user's stored hash fails. -/
theorem verify_error_taxonomy (store : List User) (email password : String)
    (huniq : (store.map User.email).Nodup) :
    (verify_user store email password = (false, .error "User not found") ↔
      ∀ u ∈ store, u.email ≠ email) ∧
    (verify_user store email password = (false, .error "Incorrect password") ↔
      ∃ u ∈ store, u.email = email ∧
        check_password_hash u.password password = false) := by
  cases hfind : find_user store email with
  | none =>
    have hnone := (find_user_eq_none_iff store email).1 hfind
    constructor
    · constructor
      · intro _
        exact hnone
      · intro _
        simp [verify_user, hfind]
    · constructor
      · intro hv
        simp [verify_user, hfind] at hv
      · rintro ⟨u, hu, he, _⟩
        exact absurd he (hnone u hu)
  | some u =>
    obtain ⟨hmem, heq⟩ := find_user_eq_some store email u hfind
    by_cases hc : check_password_hash u.password password = true
    · constructor
      · constructor
        · intro hv
          simp [verify_user, hfind, hc] at hv
        · intro hall
          exact absurd heq (hall u hmem)
      · constructor
        · intro hv
          simp [verify_user, hfind, hc] at hv
        · rintro ⟨v, hv, hve, hvc⟩
          have hvu : v = u :=
            List.inj_on_of_nodup_map huniq hv hmem (by rw [hve, heq])
          rw [hvu, hc] at hvc
          exact absurd hvc (by simp)
    · rw [Bool.not_eq_true] at hc
      constructor
      · constructor
        · intro hv
          simp [verify_user, hfind, hc] at hv
        · intro hall
          exact absurd heq (hall u hmem)
      · constructor
        · intro _
          exact ⟨u, hmem, heq, hc⟩
        · intro _
          simp [verify_user, hfind, hc]

/-- C5 witness: on a concrete one-user store, an unknown email gives
`"User not found"`. -/
theorem verify_error_taxonomy_witness :
    verify_user [⟨"a@x.com", generate_password_hash "s1" "pw", "A", "B", "t0"⟩]
        "b@x.com" "pw" = (false, .error "User not found") :=
  (verify_error_taxonomy
      [⟨"a@x.com", generate_password_hash "s1" "pw", "A", "B", "t0"⟩]
      "b@x.com" "pw" (by decide)).1.mpr (by decide)

/-- C6: with an active session, an absent, empty, or all-whitespace message
makes `/send_message` answer HTTP 400 with the fixed error body; the result
is the same constant for every AI Gateway function `ai`, so the gateway is
never consulted. -/
theorem send_message_empty_message_400 (message : Option String)
    (h : (message.getD "").data.all pyIsSpace = true) (ai : String → String) :
    send_message true message ai = .errorResp 400 "Message cannot be empty" := by
  have hs := py_strip_eq_empty_of_all_space _ h
  simp [send_message, hs]

/-- C6 witness: a whitespace-only message yields 400 (gateway `fun s => s`). -/
theorem send_message_empty_message_400_witness :
    send_message true (some " \t ") (fun s => s) =
      .errorResp 400 "Message cannot be empty" :=
  send_message_empty_message_400 (some " \t ") (by decide) (fun s => s)

/-- C7: in every store reachable by Auth Service calls from the empty store,
each stored `password` field is a generated salted hash, and whenever it is
the hash of some plaintext it differs from that plaintext — so the plaintext
supplied at registration is never stored.  (`verify_user` compares through
`check_password_hash`, never against the plaintext, by its definition.) -/
theorem stored_password_never_plaintext (store : List User)
    (h : Reachable store) :
    ∀ u ∈ store, (∃ salt pw, u.password = generate_password_hash salt pw) ∧
      ∀ salt pw, u.password = generate_password_hash salt pw →
        u.password ≠ pw := by
  induction h with
  | nil =>
    intro u hu
    simp at hu
  | step store op hr ih =>
    intro u hu
    cases op with
    | ver e p =>
      exact ih u hu
    | reg salt now email password first_name last_name =>
      cases hfind : find_user store email with
      | some v =>
        have hkeep : authStep store (.reg salt now email password first_name last_name) =
            store := by
          simp [authStep, register_user, hfind]
        rw [hkeep] at hu
        exact ih u hu
      | none =>
        have happ : authStep store (.reg salt now email password first_name last_name) =
            store ++ [⟨email, generate_password_hash salt password,
                       first_name, last_name, now⟩] := by
          simp [authStep, register_user, hfind]
        rw [happ] at hu
        rcases List.mem_append.1 hu with hmem | hmem
        · exact ih u hmem
        · simp at hmem
          subst hmem
          refine ⟨⟨salt, password, rfl⟩, ?_⟩
          intro s p hp
          rw [hp]
          exact generate_password_hash_ne_plaintext s p

/-- C7 witness: the record created by a concrete registration does not store
the plaintext `"pw"`. -/
theorem stored_password_never_plaintext_witness :
    (User.mk "a@x.com" (generate_password_hash "s1" "pw") "A" "B" "t0").password ≠
      "pw" :=
  (stored_password_never_plaintext
      [User.mk "a@x.com" (generate_password_hash "s1" "pw") "A" "B" "t0"]
      (Reachable.step [] (AuthOp.reg "s1" "t0" "a@x.com" "pw" "A" "B")
        Reachable.nil)
      (User.mk "a@x.com" (generate_password_hash "s1" "pw") "A" "B" "t0")
      (by simp)).2 "s1" "pw" rfl

/-- C8: when `register_user` succeeds the resulting store is exactly the old
sequence with the single new record appended at the end; every existing
record is untouched. -/
theorem register_success_appends (store : List User)
    (salt now email password first_name last_name : String)
    (h : (register_user store salt now email password first_name last_name).1.1 = true) :
    (register_user store salt now email password first_name last_name).2 =
      store ++ [⟨email, generate_password_hash salt password,
                 first_name, last_name, now⟩] := by
  cases hfind : find_user store email with
  | some u =>
    simp [register_user, hfind] at h
  | none =>
    simp [register_user, hfind]

/-- C8 witness: a concrete successful registration appends one record. -/
theorem register_success_appends_witness :
    (register_user [] "s1" "t0" "a@x.com" "pw" "A" "B").2 =
      [] ++ [⟨"a@x.com", generate_password_hash "s1" "pw", "A", "B", "t0"⟩] :=
  register_success_appends [] "s1" "t0" "a@x.com" "pw" "A" "B" (by decide)

/-- C9: a `register_user` call that fails leaves the store exactly as it
was (the duplicate branch returns before `save_users`), and a `verify_user`
call never changes the store (it performs reads only, never `save_users`). -/
theorem auth_failure_preserves_store (store : List User)
    (salt now email password first_name last_name : String) :
    ((register_user store salt now email password first_name last_name).1.1 = false →
      (register_user store salt now email password first_name last_name).2 = store) ∧
    ∀ email2 password2, authStep store (.ver email2 password2) = store := by
  constructor
  · intro h
    cases hfind : find_user store email with
    | some u =>
      simp [register_user, hfind]
    | none =>
      simp [register_user, hfind] at h
  · intro e p
    rfl

/-- C9 witness: a duplicate registration leaves the concrete store intact. -/
theorem auth_failure_preserves_store_witness :
    (register_user [⟨"a@x.com", generate_password_hash "s1" "pw", "A", "B", "t0"⟩]
        "s2" "t1" "a@x.com" "pw2" "C" "D").2 =
      [⟨"a@x.com", generate_password_hash "s1" "pw", "A", "B", "t0"⟩] :=
  (auth_failure_preserves_store
      [⟨"a@x.com", generate_password_hash "s1" "pw", "A", "B", "t0"⟩]
      "s2" "t1" "a@x.com" "pw2" "C" "D").1 (by decide)

/-- C10: `register_user` performs no format or non-emptiness validation:
any strings whose email is not yet stored are accepted verbatim, and a user
record with exactly those fields (in particular an empty-string email) is
created. -/
theorem register_accepts_any_strings (store : List User)
    (salt now email password first_name last_name : String)
    (h : ∀ u ∈ store, u.email ≠ email) :
    (register_user store salt now email password first_name last_name).1 =
      (true, "") ∧
    (register_user store salt now email password first_name last_name).2 =
      store ++ [⟨email, generate_password_hash salt password,
                 first_name, last_name, now⟩] := by
  have hfind : find_user store email = none :=
    (find_user_eq_none_iff store email).2 h
  constructor <;> simp [register_user, hfind]

/-- C10 witness: `register("", "", "", "")` on the empty store succeeds and
creates a user whose `email` is the empty string. -/
theorem register_accepts_any_strings_witness :
    (register_user [] "s1" "t0" "" "" "" "").1 = (true, "") ∧
    (register_user [] "s1" "t0" "" "" "" "").2 =
      [] ++ [⟨"", generate_password_hash "s1" "", "", "", "t0"⟩] :=
  register_accepts_any_strings [] "s1" "t0" "" "" "" "" (by simp)

end CitizenAI
